import Mathlib

/-!
Shallow embedding of `cmsend.py` (chatmail sendmail tool): the event waiter
`Profile.wait_for_event`, the flows `perform_init`, `perform_join`,
`perform_send`, `get_tagged_chat`, the `main` interrupt handler, and a
spec-modelled statistics aggregator for the sibling probe tool.

Python strings are Lean `String`s; the event stream (the messaging client's
`account.wait_for_event()` pulls) is a finite `List Event`; wall-clock time
(`time.time()`) is an `Int` attached to each event (the clock value when that
event is pulled) and threaded through as the current clock; message-snapshot
text resolution (`account.get_message_by_id(id).get_snapshot().text`) is a
function `Nat → String`; account config is an association list.
-/

namespace Cmsend

/-- The event kinds of `deltachat_rpc_client.EventType` used by `cmsend.py`. -/
inductive EventType where
  | INCOMING_MSG
  | ERROR
  | MSG_FAILED
  | INFO
  | WARNING
  | SECUREJOIN_JOINER_PROGRESS
  | IMAP_INBOX_IDLE
  | OTHER
deriving DecidableEq, Repr

/-- A pulled event: `kind`, the variant-specific fields used by `cmsend.py`
(`msg_id`, `progress`, `msg`, `contact_id`, `chat_id`) and `time`, the
wall-clock value (`time.time()`) at the moment this event is pulled. -/
structure Event where
  kind : EventType
  msgId : Nat := 0
  progress : Nat := 0
  msg : String := ""
  contactId : Nat := 0
  chatId : Nat := 0
  time : Int := 0
deriving DecidableEq, Repr

/-- Model of `Profile.verbose2`: emit the line only at verbosity `≥ 2` (the waiter's
`log = self.verbose2`). -/
def logIf (verbosity : Nat) (s : String) : List String :=
  if 2 ≤ verbosity then [s] else []

/-- Rendering of an event kind name, for the generic `got event:` line. -/
def kindStr : EventType → String
  | .INCOMING_MSG => "INCOMING_MSG"
  | .ERROR => "ERROR"
  | .MSG_FAILED => "MSG_FAILED"
  | .INFO => "INFO"
  | .WARNING => "WARNING"
  | .SECUREJOIN_JOINER_PROGRESS => "SECUREJOIN_JOINER_PROGRESS"
  | .IMAP_INBOX_IDLE => "IMAP_INBOX_IDLE"
  | .OTHER => "OTHER"

/-- Rendering of an event (Python's `f"{event}"`), field by field. -/
def eventStr (e : Event) : String :=
  kindStr e.kind ++ " msg_id=" ++ toString e.msgId ++ " progress=" ++
    toString e.progress ++ " msg=" ++ e.msg ++ " contact_id=" ++
    toString e.contactId ++ " chat_id=" ++ toString e.chatId ++ " time=" ++
    toString e.time

/-- The classification/logging body of the `while` loop in
`Profile.wait_for_event` (src/cmsend.py lines 195-209): an
`INCOMING_MSG` logs the resolved text; an `ERROR` logs `event.msg`; then the
`if MSG_FAILED / elif INFO,WARNING / else` chain logs a failure text, an
`INFO ...ms` line with elapsed time since `start_clock`, or a generic line. -/
def classifyEvent (msgText : Nat → String) (verbosity : Nat) (startClock : Int)
    (e : Event) : List String :=
  (if e.kind = .INCOMING_MSG then
      logIf verbosity ("!received historic message: " ++ msgText e.msgId)
    else []) ++
  (if e.kind = .ERROR then logIf verbosity ("ERROR: " ++ e.msg) else []) ++
  (if e.kind = .MSG_FAILED then
      logIf verbosity ("Message failed: " ++ msgText e.msgId)
    else if e.kind = .INFO ∨ e.kind = .WARNING then
      logIf verbosity
        ("INFO " ++ toString ((e.time - startClock) * 1000) ++ "ms: " ++ e.msg)
    else logIf verbosity ("got event: " ++ eventStr e))

/-- Result of one `wait_for_event` call: the log lines it printed, the
returned event (`none` models falling off the loop at stream end), the
wall-clock value when the call returns, and the part of the stream not
pulled. -/
structure WaitResult where
  logs : List String
  result : Option Event
  clock : Int
  rest : List Event
deriving Repr, DecidableEq

/-- The `while event := account.wait_for_event():` loop of
`Profile.wait_for_event`, with `startClock` fixed at the value captured on
entry (`start_clock = time.time()`). Each pulled event is classified and
logged, then `check_event(event)` is evaluated: a non-`none` result returns
the pulled event immediately; otherwise the loop pulls the next event. -/
def waitLoop {α : Type} (msgText : Nat → String) (verbosity : Nat)
    (check : Event → Option α) (startClock : Int) :
    List Event → WaitResult
  | [] => ⟨[], none, startClock, []⟩
  | e :: rest =>
    let logs := classifyEvent msgText verbosity startClock e
    if (check e).isSome then ⟨logs, some e, e.time, rest⟩
    else
      let r := waitLoop msgText verbosity check startClock rest
      ⟨logs ++ r.logs, r.result, r.clock, r.rest⟩

/-- Model of `Profile.wait_for_event(check_event)` (src/cmsend.py lines 188-211):
captures `start_clock = time.time()` (the entry clock) and runs the pull
loop. -/
def wait_for_event {α : Type} (msgText : Nat → String) (verbosity : Nat)
    (check : Event → Option α) (clock : Int) (events : List Event) :
    WaitResult :=
  waitLoop msgText verbosity check clock events

example :
    (wait_for_event (fun _ => "hi") 0
      (fun e => if e.kind = .INFO then some e else none) 0
      [⟨.ERROR, 0, 0, "boom", 0, 0, 1⟩, ⟨.INFO, 0, 0, "ok", 0, 0, 2⟩,
       ⟨.WARNING, 0, 0, "later", 0, 0, 3⟩]).result =
      some ⟨.INFO, 0, 0, "ok", 0, 0, 2⟩ := by decide

example :
    (wait_for_event (fun _ => "hi") 2
      (fun e => if e.kind = .INFO then some e else none) 0
      [⟨.INFO, 0, 0, "ok", 0, 0, 2⟩]).logs = ["INFO 2000ms: ok"] := by decide

/-! ## Account state and config -/

/-- The slice of a configured account that `cmsend.py` touches: the key/value
config store (`get_config`/`set_config`) and message-snapshot text resolution
(`get_message_by_id(id).get_snapshot().text`). -/
structure AccountState where
  config : List (String × String)
  msgText : Nat → String

/-- Model of `account.get_config(key)`: `none` models Python `None` for an unset key. -/
def get_config (acct : AccountState) (key : String) : Option String :=
  (acct.config.find? (fun p => p.1 == key)).map Prod.snd

/-- Model of `account.set_config(key, value)`. -/
def set_config (acct : AccountState) (key value : String) : AccountState :=
  { acct with config := (key, value) :: acct.config.filter (fun p => !(p.1 == key)) }

/-- The constant `Profile.UI_CONFIG_TAGGED_CHATS`. -/
def UI_CONFIG_TAGGED_CHATS : String := "ui.cmsend.tagged_chats"

/-! ## Python `str.split(",")` / `",".join(...)` on character lists -/

/-- Python `text.split(",")` on the character level: always returns at least
one (possibly empty) piece, e.g. `splitC "" = [""]`. -/
def splitC : List Char → List (List Char)
  | [] => [[]]
  | c :: cs =>
    if c = ',' then [] :: splitC cs
    else
      match splitC cs with
      | [] => [[c]]
      | h :: t => (c :: h) :: t

/-- Python `",".join(pieces)` on the character level. -/
def joinC : List (List Char) → List Char
  | [] => []
  | [p] => p
  | p :: ps => p ++ ',' :: joinC ps

/-- Python `s.split(",")`. -/
def pySplit (s : String) : List String := (splitC s.data).map String.mk

/-- Python `",".join(l)`. -/
def pyJoin (l : List String) : String := String.mk (joinC (l.map String.data))

/-- Python `s.startswith(pre)`. -/
def pyStartsWith (s pre : String) : Bool := pre.data.isPrefixOf s.data

/-- Python `int(s)` on a decimal-digit string (the only strings `cmsend.py`
parses this way are the `str(chat_id)` values it wrote itself). -/
def pyToNat (s : String) : Nat :=
  s.data.foldl (fun acc c => acc * 10 + (c.toNat - 48)) 0

/-! ## `perform_join` (src/cmsend.py lines 124-156) -/

/-- The first join predicate `check_joined`: matches exactly a
`SECUREJOIN_JOINER_PROGRESS` event whose `progress` is `1000` (100%), and
returns the event itself. -/
def check_joined (e : Event) : Option Event :=
  if e.kind = .SECUREJOIN_JOINER_PROGRESS ∧ e.progress = 1000 then some e
  else none

/-- The second join predicate `me_was_added`: matches an `INCOMING_MSG` whose
resolved text starts with `"Member Me added"` (the group-membership
confirmation message), returning `True`. -/
def me_was_added (msgText : Nat → String) (e : Event) : Option Bool :=
  if e.kind = .INCOMING_MSG ∧ pyStartsWith (msgText e.msgId) "Member Me added"
  then some true
  else none

/-- Outcome of a flow that may `raise SystemExit(code)`: a run in which a
wait fell off the end of its event stream is `streamEnded` (in Python the
subsequent attribute access on `None` would crash). -/
inductive JoinOutcome where
  | exit (code : Nat)
  | streamEnded
  | ok (acct : AccountState) (chatId : Nat) (logs : List String)

/-- The tag-registry update of `perform_join` lines 153-156:
`tags = set(list_tags.split(","))`; `tags.add(tag)`. The Python set is
modelled canonically as order-preserving dedup followed by appending the tag
when absent. -/
def registryInsert (tags : List String) (tag : String) : List String :=
  let d := tags.dedup
  if tag ∈ d then d else d ++ [tag]

/-- The config writes of `perform_join` lines 152-156 after the waits
returned: record the joined chat id under the per-tag key, then insert the
tag into the comma-joined registry. -/
def joinUpdate (acct : AccountState) (tag : String) (chat_id : Nat) :
    AccountState :=
  let acct1 := set_config acct (UI_CONFIG_TAGGED_CHATS ++ "." ++ tag)
    (toString chat_id)
  let list_tags := (get_config acct1 UI_CONFIG_TAGGED_CHATS).getD ""
  let tags := registryInsert (pySplit list_tags) tag
  set_config acct1 UI_CONFIG_TAGGED_CHATS (pyJoin tags)

/-- Model of `Profile.perform_join(tag, invitelink)`: exit 4 without a configured
account; otherwise wait for `check_joined`, then (with the clock and stream
where the first wait stopped) wait for `me_was_added`, then apply
`joinUpdate` with the chat id of the event the second wait returned. -/
def perform_join (profile : Option AccountState) (verbosity : Nat)
    (tag : String) (clock : Int) (events : List Event) : JoinOutcome :=
  match profile with
  | none => .exit 4
  | some acct =>
    let r1 := wait_for_event acct.msgText verbosity check_joined clock events
    match r1.result with
    | none => .streamEnded
    | some _ =>
      let r2 := wait_for_event acct.msgText verbosity
        (me_was_added acct.msgText) r1.clock r1.rest
      match r2.result with
      | none => .streamEnded
      | some ev_chat_id =>
        .ok (joinUpdate acct tag ev_chat_id.chatId) ev_chat_id.chatId
          (r1.logs ++ r2.logs)

/-! ## `perform_send` and `get_tagged_chat` (src/cmsend.py lines 167-186) -/

/-- The snapshot fields `perform_send` reads from
`chat.get_full_snapshot()`. -/
structure ChatSnapshot where
  is_encrypted : Bool
  can_send : Bool

/-- Side effects of `perform_send`, in order. -/
inductive SendAction where
  | start_io
  | sendMessage (chatId : Nat) (text : String) (file : Option String)
  | waitDelivered
deriving DecidableEq, Repr

/-- Model of `Profile.get_tagged_chat(tag)`: exit 5 when the per-tag config key is
unset or empty, else the chat id parsed back from the stored string. -/
def get_tagged_chat (acct : AccountState) (tag : String) : Except Nat Nat :=
  match get_config acct (UI_CONFIG_TAGGED_CHATS ++ "." ++ tag) with
  | none => .error 5
  | some s => if s = "" then .error 5 else .ok (pyToNat s)

/-- Model of `Profile.perform_send(tag, text, filename)`: after `start_io`, resolve
the tagged chat (exit 5 if none); send and await delivery only when the
snapshot has both `is_encrypted` and `can_send`, returning 0; otherwise
exit 5 with no message sent. The first component lists the side effects in
order. -/
def perform_send (acct : AccountState) (snapshots : Nat → ChatSnapshot)
    (tag text : String) (filename : Option String) :
    List SendAction × Except Nat Nat :=
  match get_tagged_chat acct tag with
  | .error n => ([.start_io], .error n)
  | .ok chatId =>
    let snap := snapshots chatId
    if snap.is_encrypted && snap.can_send then
      ([.start_io, .sendMessage chatId text filename, .waitDelivered], .ok 0)
    else ([.start_io], .error 5)

/-! ## `perform_init` (src/cmsend.py lines 113-122) and `main` -/

/-- The profile state `perform_init` touches: the account ids known to the
`DeltaChat` instance and the active (configured) account, if any. -/
structure ProfileState where
  accounts : List Nat
  active : Option Nat
deriving DecidableEq, Repr

/-- Model of `Profile.perform_init(domain)`: exit 3 (state unchanged) when a profile
already exists; otherwise `add_account` a fresh account id and make it
active. -/
def perform_init (p : ProfileState) (freshId : Nat) :
    ProfileState × Except Nat Unit :=
  if p.active.isSome then (p, .error 3)
  else ({ accounts := p.accounts ++ [freshId], active := some freshId }, .ok ())

/-- Outcome of `perform_main(args)` as seen by `main`'s `try`/`except`. -/
inductive MainOutcome (α : Type) where
  | ok (a : α)
  | keyboardInterrupt
  | systemExit (code : Nat)
deriving DecidableEq, Repr

/-- Model of `main()` (src/cmsend.py lines 57-60): run `perform_main` and convert a
`KeyboardInterrupt` into `SystemExit(2)`; everything else passes through. -/
def main {α : Type} (r : MainOutcome α) : MainOutcome α :=
  match r with
  | .keyboardInterrupt => .systemExit 2
  | r => r

/-! ## Statistics Aggregator

Modelled from the spec: the Statistics Aggregator (spec §4.4) belongs to the
sibling probe tool, whose source is not under src/ (src/ only contains
`cmsend.py`). Per the spec's words: `min`/`mean`/`max` over the sample
values, and `mdev` is the sample standard deviation when at least 2 samples
exist, otherwise defined as equal to `max`. -/

/-- Modelled from the spec: `max` over all sample values (latencies are
non-negative; `0` on the empty set, where the spec omits the statistic). -/
def statMax (l : List ℚ) : ℚ :=
  match l with
  | [] => 0
  | x :: xs => xs.foldl max x

/-- Modelled from the spec: arithmetic mean of the samples. -/
def statMean (l : List ℚ) : ℚ := l.sum / l.length

/-- Modelled from the spec: sample variance (squared sample standard
deviation, the `n - 1` divisor). -/
def sampleVariance (l : List ℚ) : ℚ :=
  ((l.map (fun x => (x - statMean l) ^ 2)).sum) / ((l.length : ℚ) - 1)

/-- Modelled from the spec: `mdev` = sample standard deviation when at least
2 samples exist; otherwise equal to `max` (the degenerate fallback for
`n < 2`). -/
noncomputable def mdev (l : List ℚ) : ℝ :=
  if 2 ≤ l.length then Real.sqrt (sampleVariance l) else (statMax l : ℝ)

/-! ## Concrete inputs for witnesses -/

/-- A message-text resolver on which `me_was_added` matches every message. -/
def msgText0 : Nat → String := fun _ => "Member Me added you to the group"

/-- A fresh account with empty config. -/
def acct0 : AccountState := ⟨[], msgText0⟩

/-- A 100%-progress handshake event. -/
def ev_progress : Event := ⟨.SECUREJOIN_JOINER_PROGRESS, 0, 1000, "", 5, 0, 10⟩

/-- The group-membership confirmation message event, on chat 7. -/
def ev_member : Event := ⟨.INCOMING_MSG, 3, 0, "", 0, 7, 12⟩

/-- An event stream carrying a complete join handshake. -/
def events0 : List Event := [ev_progress, ev_member]

/-- An informational event at clock 2. -/
def ev_info : Event := ⟨.INFO, 0, 0, "ok", 0, 0, 2⟩

/-- A transport-error event. -/
def ev_error : Event := ⟨.ERROR, 0, 0, "boom", 0, 0, 1⟩

/-- A predicate that never matches. -/
def checkNone : Event → Option Event := fun _ => none

/-- A predicate whose return value is a fixed marker event, distinct from any
event it is applied to in the development. -/
def marker : Event := ⟨.OTHER, 0, 0, "marker", 0, 0, 99⟩

/-- The constant predicate returning `marker`. -/
def constMarker : Event → Option Event := fun _ => some marker

/-- The registry config value after a join, when the join completed. -/
def registryAfter (o : JoinOutcome) : Option String :=
  match o with
  | .ok acct _ _ => get_config acct UI_CONFIG_TAGGED_CHATS
  | _ => none

/-- An account whose tag `work` maps to chat 7. -/
def acctSend : AccountState :=
  ⟨[("ui.cmsend.tagged_chats.work", "7")], msgText0⟩

/-- Snapshots reporting every chat encrypted and writable. -/
def snapsAll : Nat → ChatSnapshot := fun _ => ⟨true, true⟩

/-- Snapshots reporting every chat unencrypted (though writable). -/
def snapsPlain : Nat → ChatSnapshot := fun _ => ⟨false, true⟩

/-! ## Lemmas on the event waiter -/

theorem waitLoop_cons_none {α : Type} (msgText : Nat → String)
    (verbosity : Nat) (check : Event → Option α) (s : Int) (e : Event)
    (rest : List Event) (h : check e = none) :
    waitLoop msgText verbosity check s (e :: rest) =
      ⟨classifyEvent msgText verbosity s e ++
          (waitLoop msgText verbosity check s rest).logs,
        (waitLoop msgText verbosity check s rest).result,
        (waitLoop msgText verbosity check s rest).clock,
        (waitLoop msgText verbosity check s rest).rest⟩ := by
  simp [waitLoop, h]

theorem waitLoop_cons_some {α : Type} (msgText : Nat → String)
    (verbosity : Nat) (check : Event → Option α) (s : Int) (e : Event)
    (rest : List Event) (h : (check e).isSome = true) :
    waitLoop msgText verbosity check s (e :: rest) =
      ⟨classifyEvent msgText verbosity s e, some e, e.time, rest⟩ := by
  simp [waitLoop, h]

theorem waitLoop_append_none {α : Type} (msgText : Nat → String)
    (verbosity : Nat) (check : Event → Option α) (s : Int) (pre l : List Event)
    (h : ∀ x ∈ pre, check x = none) :
    waitLoop msgText verbosity check s (pre ++ l) =
      ⟨(pre.map (classifyEvent msgText verbosity s)).flatten ++
          (waitLoop msgText verbosity check s l).logs,
        (waitLoop msgText verbosity check s l).result,
        (waitLoop msgText verbosity check s l).clock,
        (waitLoop msgText verbosity check s l).rest⟩ := by
  induction pre with
  | nil => simp
  | cons p pre ih =>
    rw [List.cons_append,
      waitLoop_cons_none msgText verbosity check s p (pre ++ l)
        (h p (List.mem_cons_self p pre)),
      ih (fun x hx => h x (List.mem_cons_of_mem p hx))]
    simp

/-- The clock a wait call hands on equals the pull time of the event it
returned. -/
theorem waitLoop_clock_eq_time {α : Type} (msgText : Nat → String)
    (verbosity : Nat) (check : Event → Option α) (s : Int)
    (events : List Event) (e : Event)
    (h : (waitLoop msgText verbosity check s events).result = some e) :
    (waitLoop msgText verbosity check s events).clock = e.time := by
  induction events with
  | nil => simp [waitLoop] at h
  | cons p rest ih =>
    by_cases hp : (check p).isSome = true
    · rw [waitLoop_cons_some msgText verbosity check s p rest hp] at h ⊢
      cases h
      rfl
    · rw [waitLoop_cons_none msgText verbosity check s p rest
        (Option.not_isSome_iff_eq_none.mp hp)] at h ⊢
      exact ih h

/-- The lemma `waitLoop_clock_eq_time`, restated on `wait_for_event`. -/
theorem wait_clock_eq_time {α : Type} (msgText : Nat → String)
    (verbosity : Nat) (check : Event → Option α) (s : Int)
    (events : List Event) (e : Event)
    (h : (wait_for_event msgText verbosity check s events).result = some e) :
    (wait_for_event msgText verbosity check s events).clock = e.time :=
  waitLoop_clock_eq_time msgText verbosity check s events e h

/-! ## Claim theorems -/

/-- C1 (counterexample): as stated, the claim says `wait` returns the
predicate's return value; on the stream `[ev_progress]` with the predicate
constantly returning `marker`, `wait_for_event` returns the pulled event
`ev_progress`, which differs from the predicate's return value `marker`. -/
theorem wait_returns_event_not_predicate_value :
    (wait_for_event msgText0 0 constMarker 0 [ev_progress]).result =
        some ev_progress ∧
      constMarker ev_progress = some marker ∧ ev_progress ≠ marker := by
  refine ⟨by decide, rfl, by decide⟩

/-- C1 (amended): after classifying and logging each pulled event, the
waiter evaluates the predicate and, the first time it returns a non-empty
result, returns the pulled event itself (not the predicate's return value)
immediately, pulling no further events. -/
theorem wait_first_match_returns_event {α : Type} (msgText : Nat → String)
    (verbosity : Nat) (check : Event → Option α) (clock : Int)
    (pre : List Event) (e : Event) (post : List Event)
    (hpre : ∀ x ∈ pre, check x = none) (he : (check e).isSome = true) :
    wait_for_event msgText verbosity check clock (pre ++ e :: post) =
      ⟨(pre.map (classifyEvent msgText verbosity clock)).flatten ++
          classifyEvent msgText verbosity clock e,
        some e, e.time, post⟩ := by
  rw [wait_for_event, waitLoop_append_none msgText verbosity check clock
    pre (e :: post) hpre,
    waitLoop_cons_some msgText verbosity check clock e post he]

/-- C1 (witness). -/
theorem wait_first_match_returns_event_witness :
    (∀ x ∈ [ev_error], check_joined x = none) ∧
      (check_joined ev_progress).isSome = true ∧
      wait_for_event msgText0 0 check_joined 0 ([ev_error] ++ [ev_progress]) =
        ⟨[], some ev_progress, 10, []⟩ := by
  refine ⟨by decide, by decide, ?_⟩
  have h := wait_first_match_returns_event msgText0 0 check_joined 0
    [ev_error] ev_progress [] (by decide) (by decide)
  rw [h]
  decide

/-- C2: a `KeyboardInterrupt` escaping `perform_main` always makes `main`
exit with the distinct interrupted status 2, regardless of the outcome the
run would otherwise have had. -/
theorem interrupt_exits_with_status_2 (r : MainOutcome Nat)
    (h : r = .keyboardInterrupt) : main r = .systemExit 2 := by
  subst h
  rfl

/-- C2 (witness). -/
theorem interrupt_exits_with_status_2_witness :
    ((MainOutcome.keyboardInterrupt : MainOutcome Nat) =
        .keyboardInterrupt) ∧
      main (MainOutcome.keyboardInterrupt : MainOutcome Nat) =
        .systemExit 2 :=
  ⟨rfl, interrupt_exits_with_status_2 _ rfl⟩

/-- C3: a transport-error (`ERROR`) or delivery-failure (`MSG_FAILED`) event
that the caller's predicate does not match is only logged: the waiter
neither fails nor returns on it, and continues pulling from the remaining
stream with outcome unchanged apart from the prepended log lines. -/
theorem error_events_only_logged {α : Type} (msgText : Nat → String)
    (verbosity : Nat) (check : Event → Option α) (clock : Int) (e : Event)
    (rest : List Event)
    (_hkind : e.kind = .ERROR ∨ e.kind = .MSG_FAILED)
    (hc : check e = none) :
    wait_for_event msgText verbosity check clock (e :: rest) =
      ⟨classifyEvent msgText verbosity clock e ++
          (wait_for_event msgText verbosity check clock rest).logs,
        (wait_for_event msgText verbosity check clock rest).result,
        (wait_for_event msgText verbosity check clock rest).clock,
        (wait_for_event msgText verbosity check clock rest).rest⟩ :=
  waitLoop_cons_none msgText verbosity check clock e rest hc

/-- C3 (witness). -/
theorem error_events_only_logged_witness :
    (Cmsend.ev_error.kind = .ERROR ∨ Cmsend.ev_error.kind = .MSG_FAILED) ∧
      checkNone ev_error = none ∧
      wait_for_event msgText0 2 checkNone 0 [ev_error, ev_info] =
        ⟨["ERROR: boom", "got event: " ++ eventStr ev_error,
            "INFO 2000ms: ok"],
          none, 0, []⟩ := by
  refine ⟨Or.inl rfl, rfl, ?_⟩
  have h := error_events_only_logged msgText0 2 checkNone 0 ev_error
    [ev_info] (Or.inl rfl) rfl
  rw [h]
  decide

/-- C6: on a finite event stream whose events the predicate never matches,
the waiter terminates exactly when the stream ends: it returns without a
matched result (`none`), having consumed the whole stream. -/
theorem wait_terminates_on_stream_end {α : Type} (msgText : Nat → String)
    (verbosity : Nat) (check : Event → Option α) (clock : Int)
    (events : List Event) (h : ∀ e ∈ events, check e = none) :
    (wait_for_event msgText verbosity check clock events).result = none ∧
      (wait_for_event msgText verbosity check clock events).rest = [] := by
  have heq := waitLoop_append_none msgText verbosity check clock events [] h
  rw [List.append_nil] at heq
  rw [wait_for_event, heq]
  simp [waitLoop]

/-- C6 (witness). -/
theorem wait_terminates_on_stream_end_witness :
    (∀ e ∈ [ev_error, ev_info], checkNone e = none) ∧
      (wait_for_event msgText0 0 checkNone 0 [ev_error, ev_info]).result =
          none ∧
      (wait_for_event msgText0 0 checkNone 0 [ev_error, ev_info]).rest =
          [] :=
  ⟨fun _ _ => rfl,
    wait_terminates_on_stream_end msgText0 0 checkNone 0 [ev_error, ev_info]
      (fun _ _ => rfl)⟩

/-- C7: in the spec-modelled Statistics Aggregator, with fewer than 2
samples `mdev` equals `max`; in particular with the single sample `42.0`
both equal `42.0`. -/
theorem mdev_equals_max_below_two_samples :
    (∀ l : List ℚ, l.length < 2 → mdev l = (statMax l : ℝ)) ∧
      mdev [(42 : ℚ)] = 42 ∧ statMax [(42 : ℚ)] = 42 := by
  refine ⟨fun l h => ?_, ?_, ?_⟩
  · rw [mdev, if_neg (by omega)]
  · rw [mdev, if_neg (by norm_num)]
    norm_num [statMax]
  · norm_num [statMax]

/-- C7 (witness). -/
theorem mdev_equals_max_below_two_samples_witness :
    ([(42 : ℚ)].length < 2) ∧ mdev [(42 : ℚ)] = (statMax [(42 : ℚ)] : ℝ) :=
  ⟨by norm_num, mdev_equals_max_below_two_samples.1 [(42 : ℚ)] (by norm_num)⟩

/-- C9: when a configured profile already exists, `perform_init` exits with
status 3 and the profile state (account set and active account) is
unchanged. -/
theorem init_is_noop_when_profile_exists (p : ProfileState) (freshId : Nat)
    (h : p.active.isSome = true) :
    perform_init p freshId = (p, .error 3) := by
  simp [perform_init, h]

/-- C9 (witness). -/
theorem init_is_noop_when_profile_exists_witness :
    ((ProfileState.mk [1] (some 1)).active.isSome = true) ∧
      perform_init ⟨[1], some 1⟩ 2 = (⟨[1], some 1⟩, .error 3) :=
  ⟨rfl, init_is_noop_when_profile_exists ⟨[1], some 1⟩ 2 rfl⟩

/-! ## Lemmas on the comma split/join model -/

theorem splitC_no_comma (p : List Char) (h : ',' ∉ p) : splitC p = [p] := by
  induction p with
  | nil => rfl
  | cons c cs ih =>
    have hc : ¬ c = ',' := fun hc => h (hc ▸ List.mem_cons_self c cs)
    have hcs : ',' ∉ cs := fun hm => h (List.mem_cons_of_mem c hm)
    simp [splitC, hc, ih hcs]

theorem splitC_append_comma (p r : List Char) (h : ',' ∉ p) :
    splitC (p ++ ',' :: r) = p :: splitC r := by
  induction p with
  | nil => simp [splitC]
  | cons c cs ih =>
    have hc : ¬ c = ',' := fun hc => h (hc ▸ List.mem_cons_self c cs)
    have hcs : ',' ∉ cs := fun hm => h (List.mem_cons_of_mem c hm)
    simp [splitC, hc, ih hcs]

theorem splitC_ne_nil (l : List Char) : splitC l ≠ [] := by
  induction l with
  | nil => simp [splitC]
  | cons c cs ih =>
    by_cases hc : c = ','
    · simp [splitC, hc]
    · simp only [splitC, if_neg hc]
      cases hcs : splitC cs with
      | nil => simp
      | cons h' t => simp

theorem comma_not_mem_splitC (l : List Char) (p : List Char)
    (h : p ∈ splitC l) : ',' ∉ p := by
  induction l generalizing p with
  | nil =>
    simp [splitC] at h
    simp [h]
  | cons c cs ih =>
    by_cases hc : c = ','
    · rw [splitC, if_pos hc] at h
      rcases List.mem_cons.mp h with h1 | h1
      · simp [h1]
      · exact ih p h1
    · rw [splitC, if_neg hc] at h
      cases hcs : splitC cs with
      | nil => exact absurd hcs (splitC_ne_nil cs)
      | cons q t =>
        rw [hcs] at h
        rcases List.mem_cons.mp h with h1 | h1
        · subst h1
          intro hm
          rcases List.mem_cons.mp hm with h2 | h2
          · exact hc h2.symm
          · exact ih q (hcs ▸ List.mem_cons_self q t) h2
        · exact ih p (hcs ▸ List.mem_cons_of_mem q h1)

theorem splitC_joinC (l : List (List Char)) (hne : l ≠ [])
    (h : ∀ p ∈ l, ',' ∉ p) : splitC (joinC l) = l := by
  induction l with
  | nil => exact absurd rfl hne
  | cons p ps ih =>
    cases ps with
    | nil => simpa [joinC] using splitC_no_comma p (h p (List.mem_cons_self p []))
    | cons q qs =>
      have hjoin : joinC (p :: q :: qs) = p ++ ',' :: joinC (q :: qs) := rfl
      rw [hjoin, splitC_append_comma p _ (h p (List.mem_cons_self p _)),
        ih (List.cons_ne_nil q qs) (fun x hx => h x (List.mem_cons_of_mem p hx))]

theorem pySplit_pyJoin (l : List String) (hne : l ≠ [])
    (h : ∀ s ∈ l, ',' ∉ s.data) : pySplit (pyJoin l) = l := by
  unfold pySplit pyJoin
  have hdata : (String.mk (joinC (l.map String.data))).data =
      joinC (l.map String.data) := rfl
  rw [hdata, splitC_joinC (l.map String.data)
    (by simpa using hne)
    (by
      intro p hp
      rcases List.mem_map.mp hp with ⟨s, hs, rfl⟩
      exact h s hs), List.map_map]
  have hid : (String.mk ∘ String.data) = id := funext fun s => rfl
  rw [hid, List.map_id]

theorem comma_not_mem_pySplit (x : String) (s : String) (h : s ∈ pySplit x) :
    ',' ∉ s.data := by
  rcases List.mem_map.mp h with ⟨p, hp, rfl⟩
  exact comma_not_mem_splitC x.data p hp

/-! ## Lemmas on the config store -/

theorem find?_filter_key (k k' : String) (hkk : ¬ k' = k)
    (l : List (String × String)) :
    (l.filter (fun p => !(p.1 == k))).find? (fun p => p.1 == k') =
      l.find? (fun p => p.1 == k') := by
  induction l with
  | nil => rfl
  | cons p t ih =>
    by_cases h1 : p.1 = k
    · have hk : (p.1 == k) = true := beq_iff_eq.mpr h1
      have hk' : (p.1 == k') = false := by
        refine beq_eq_false_iff_ne.mpr ?_
        rw [h1]
        exact fun hh => hkk hh.symm
      simp [List.filter_cons, hk, List.find?, hk', ih]
    · have hk : (p.1 == k) = false := beq_eq_false_iff_ne.mpr h1
      by_cases h2 : p.1 = k'
      · have hk' : (p.1 == k') = true := beq_iff_eq.mpr h2
        simp [List.filter_cons, hk, List.find?, hk']
      · have hk' : (p.1 == k') = false := beq_eq_false_iff_ne.mpr h2
        simp [List.filter_cons, hk, List.find?, hk', ih]

theorem get_config_set_self (a : AccountState) (k v : String) :
    get_config (set_config a k v) k = some v := by
  simp [get_config, set_config, List.find?]

theorem get_config_set_ne (a : AccountState) (k v k' : String)
    (h : k' ≠ k) : get_config (set_config a k v) k' = get_config a k' := by
  have hk : (k == k') = false := by
    refine beq_eq_false_iff_ne.mpr ?_
    exact fun hh => h hh.symm
  simp only [get_config, set_config, List.find?, hk]
  rw [find?_filter_key k k' h]

theorem ui_key_ne (tag : String) :
    UI_CONFIG_TAGGED_CHATS ++ "." ++ tag ≠ UI_CONFIG_TAGGED_CHATS := by
  intro h
  have h2 := congrArg String.data h
  rw [String.data_append, String.data_append] at h2
  have h3 := congrArg List.length h2
  have hdot : (".".data) = ['.'] := rfl
  rw [hdot] at h3
  simp [List.length_append] at h3

/-! ## Lemmas on the registry insert -/

theorem registryInsert_mem (l : List String) (tag : String) :
    tag ∈ registryInsert l tag := by
  unfold registryInsert
  by_cases h : tag ∈ l.dedup
  · simp [h]
  · simp [h]

theorem registryInsert_nodup (l : List String) (tag : String) :
    (registryInsert l tag).Nodup := by
  unfold registryInsert
  by_cases h : tag ∈ l.dedup
  · simpa [h] using l.nodup_dedup
  · simp only [if_neg h]
    refine List.Nodup.append l.nodup_dedup (List.nodup_singleton tag) ?_
    intro x hx hx'
    rcases List.mem_singleton.mp hx' with rfl
    exact h hx

theorem registryInsert_ne_nil (l : List String) (tag : String) :
    registryInsert l tag ≠ [] := by
  intro h
  have := registryInsert_mem l tag
  rw [h] at this
  exact List.not_mem_nil tag this

theorem registryInsert_comma_free (l : List String) (tag : String)
    (hl : ∀ s ∈ l, ',' ∉ s.data) (ht : ',' ∉ tag.data) :
    ∀ s ∈ registryInsert l tag, ',' ∉ s.data := by
  intro s hs
  unfold registryInsert at hs
  by_cases h : tag ∈ l.dedup
  · rw [if_pos h] at hs
    exact hl s (List.mem_dedup.mp hs)
  · rw [if_neg h] at hs
    rcases List.mem_append.mp hs with h1 | h1
    · exact hl s (List.mem_dedup.mp h1)
    · rcases List.mem_singleton.mp h1 with rfl
      exact ht

/-- The combined effect of the two config writes of `perform_join` on the
per-tag key and the comma-joined registry, for a comma-free tag. -/
theorem joinUpdate_spec (acct : AccountState) (tag : String) (cid : Nat)
    (htag : ',' ∉ tag.data) :
    get_config (joinUpdate acct tag cid)
        (UI_CONFIG_TAGGED_CHATS ++ "." ++ tag) = some (toString cid) ∧
      tag ∈ pySplit
        ((get_config (joinUpdate acct tag cid) UI_CONFIG_TAGGED_CHATS).getD
          "") ∧
      (pySplit
          ((get_config (joinUpdate acct tag cid)
              UI_CONFIG_TAGGED_CHATS).getD "")).count tag = 1 := by
  unfold joinUpdate
  have hne := ui_key_ne tag
  set acct1 := set_config acct (UI_CONFIG_TAGGED_CHATS ++ "." ++ tag)
    (toString cid) with hacct1
  set tags := registryInsert
    (pySplit ((get_config acct1 UI_CONFIG_TAGGED_CHATS).getD "")) tag
    with htags
  have hreg : get_config (set_config acct1 UI_CONFIG_TAGGED_CHATS
      (pyJoin tags)) UI_CONFIG_TAGGED_CHATS = some (pyJoin tags) :=
    get_config_set_self acct1 UI_CONFIG_TAGGED_CHATS (pyJoin tags)
  have hsplit : pySplit (pyJoin tags) = tags := by
    refine pySplit_pyJoin tags (registryInsert_ne_nil _ tag) ?_
    refine registryInsert_comma_free _ tag ?_ htag
    intro s hs
    exact comma_not_mem_pySplit _ s hs
  refine ⟨?_, ?_, ?_⟩
  · rw [get_config_set_ne acct1 UI_CONFIG_TAGGED_CHATS (pyJoin tags)
      (UI_CONFIG_TAGGED_CHATS ++ "." ++ tag) hne, hacct1,
      get_config_set_self]
  · rw [hreg]
    simp only [Option.getD_some]
    rw [hsplit]
    exact registryInsert_mem _ tag
  · rw [hreg]
    simp only [Option.getD_some]
    rw [hsplit]
    exact List.count_eq_one_of_mem (registryInsert_nodup _ tag)
      (registryInsert_mem _ tag)

/-- C10 (amended): after a successful join with a comma-free tag `t`, the
registry config split on commas contains `t` exactly once (set semantics, so
a repeated join cannot duplicate it), and the per-tag config key for `t`
holds the joined chat's id. -/
theorem join_records_tag_and_chat (acct : AccountState) (verbosity : Nat)
    (tag : String) (clock : Int) (events : List Event)
    (acct' : AccountState) (chatId : Nat) (logs : List String)
    (htag : ',' ∉ tag.data)
    (h : perform_join (some acct) verbosity tag clock events =
      .ok acct' chatId logs) :
    get_config acct' (UI_CONFIG_TAGGED_CHATS ++ "." ++ tag) =
        some (toString chatId) ∧
      tag ∈ pySplit
        ((get_config acct' UI_CONFIG_TAGGED_CHATS).getD "") ∧
      (pySplit ((get_config acct' UI_CONFIG_TAGGED_CHATS).getD "")).count
          tag = 1 := by
  have hacct : acct' = joinUpdate acct tag chatId := by
    simp only [perform_join] at h
    split at h
    · exact absurd h (by simp)
    · split at h
      · exact absurd h (by simp)
      · injection h with h1 h2 h3
        rw [← h1, h2]
  rw [hacct]
  exact joinUpdate_spec acct tag chatId htag

/-- C10 (counterexample): with the tag `"a,b"` (which contains a comma) a
successful join stores the registry `",a,b"`, whose comma-split does not
contain the tag — the claim fails as stated for arbitrary tags. -/
theorem join_comma_tag_missing_from_registry :
    registryAfter (perform_join (some acct0) 0 "a,b" 0 events0) =
        some ",a,b" ∧
      "a,b" ∉ pySplit ",a,b" := by
  exact ⟨rfl, by decide⟩

/-- C10 (witness). -/
theorem join_records_tag_and_chat_witness :
    (',' ∉ ("work" : String).data) ∧
      (perform_join (some acct0) 0 "work" 0 events0 =
        .ok (joinUpdate acct0 "work" 7) 7 []) ∧
      (get_config (joinUpdate acct0 "work" 7)
          (UI_CONFIG_TAGGED_CHATS ++ "." ++ "work") = some (toString 7) ∧
        "work" ∈ pySplit
          ((get_config (joinUpdate acct0 "work" 7)
              UI_CONFIG_TAGGED_CHATS).getD "") ∧
        (pySplit ((get_config (joinUpdate acct0 "work" 7)
            UI_CONFIG_TAGGED_CHATS).getD "")).count "work" = 1) :=
  ⟨by decide, rfl,
    join_records_tag_and_chat acct0 0 "work" 0 events0
      (joinUpdate acct0 "work" 7) 7 [] (by decide) rfl⟩

/-- C4: the join flow performs two waits in order. The first predicate
`check_joined` matches exactly a handshake-progress event reporting 100%
(progress value 1000); the second predicate `me_was_added` matches exactly
the arrival of the group-membership confirmation message; and
`perform_join` completes (`.ok`) only when the first wait returned and the
second wait — run on the stream and clock where the first stopped —
returned as well. -/
theorem join_runs_two_waits_in_order :
    (∀ e : Event, (check_joined e).isSome = true ↔
        (e.kind = .SECUREJOIN_JOINER_PROGRESS ∧ e.progress = 1000)) ∧
      (∀ (mt : Nat → String) (e : Event),
        (me_was_added mt e).isSome = true ↔
          (e.kind = .INCOMING_MSG ∧
            pyStartsWith (mt e.msgId) "Member Me added" = true)) ∧
      (∀ (acct : AccountState) (verbosity : Nat) (tag : String) (clock : Int)
          (events : List Event) (acct' : AccountState) (chatId : Nat)
          (logs : List String),
        perform_join (some acct) verbosity tag clock events =
            .ok acct' chatId logs →
          (wait_for_event acct.msgText verbosity check_joined clock
              events).result.isSome = true ∧
            (wait_for_event acct.msgText verbosity (me_was_added acct.msgText)
                (wait_for_event acct.msgText verbosity check_joined clock
                  events).clock
                (wait_for_event acct.msgText verbosity check_joined clock
                  events).rest).result.isSome = true) := by
  refine ⟨?_, ?_, ?_⟩
  · intro e
    by_cases h : e.kind = .SECUREJOIN_JOINER_PROGRESS ∧ e.progress = 1000 <;>
      simp [check_joined, h]
  · intro mt e
    by_cases h : e.kind = .INCOMING_MSG ∧
        pyStartsWith (mt e.msgId) "Member Me added" = true <;>
      simp [me_was_added, h]
  · intro acct verbosity tag clock events acct' chatId logs h
    simp only [perform_join] at h
    split at h
    · exact absurd h (by simp)
    · split at h
      · exact absurd h (by simp)
      · rename_i o1 ev1 heq1 o2 ev2 heq2
        constructor
        · rw [heq1]
          rfl
        · rw [heq2]
          rfl

/-- C4 (witness). -/
theorem join_runs_two_waits_in_order_witness :
    (perform_join (some acct0) 0 "work" 0 events0 =
        .ok (joinUpdate acct0 "work" 7) 7 []) ∧
      (wait_for_event acct0.msgText 0 check_joined 0
          events0).result.isSome = true ∧
        (wait_for_event acct0.msgText 0 (me_was_added acct0.msgText)
            (wait_for_event acct0.msgText 0 check_joined 0 events0).clock
            (wait_for_event acct0.msgText 0 check_joined 0
              events0).rest).result.isSome = true :=
  ⟨rfl,
    join_runs_two_waits_in_order.2.2 acct0 0 "work" 0 events0
      (joinUpdate acct0 "work" 7) 7 [] rfl⟩

/-- C8: `perform_send` sends on the tagged chat only when the chat snapshot
reports both `is_encrypted` and `can_send`: then it queues the message,
awaits delivery, and returns 0; when either flag is false it exits with
status 5 having sent nothing. -/
theorem send_requires_encrypted_and_writable (acct : AccountState)
    (snapshots : Nat → ChatSnapshot) (tag text : String)
    (filename : Option String) (chatId : Nat)
    (h : get_tagged_chat acct tag = .ok chatId) :
    (((snapshots chatId).is_encrypted && (snapshots chatId).can_send) =
        true →
      perform_send acct snapshots tag text filename =
        ([.start_io, .sendMessage chatId text filename, .waitDelivered],
          .ok 0)) ∧
      (((snapshots chatId).is_encrypted && (snapshots chatId).can_send) =
          false →
        perform_send acct snapshots tag text filename =
          ([.start_io], .error 5)) := by
  constructor
  · intro hcond
    simp [perform_send, h, hcond]
  · intro hcond
    simp [perform_send, h, hcond]

/-- C8 (witness). -/
theorem send_requires_encrypted_and_writable_witness :
    (get_tagged_chat acctSend "work" = .ok 7) ∧
      (((snapsAll 7).is_encrypted && (snapsAll 7).can_send) = true) ∧
      perform_send acctSend snapsAll "work" "hello" none =
        ([.start_io, .sendMessage 7 "hello" none, .waitDelivered], .ok 0) :=
  ⟨rfl, rfl,
    (send_requires_encrypted_and_writable acctSend snapsAll "work" "hello"
      none 7 rfl).1 rfl⟩

/-- C5 helper: at verbosity at least 2, a progress/informational event is
classified into exactly the `INFO ...ms` line with elapsed time measured
from the waiter's start clock. -/
theorem classify_info_line (msgText : Nat → String) (verbosity : Nat)
    (s : Int) (e : Event) (h2 : 2 ≤ verbosity)
    (hk : e.kind = .INFO ∨ e.kind = .WARNING) :
    classifyEvent msgText verbosity s e =
      ["INFO " ++ toString ((e.time - s) * 1000) ++ "ms: " ++ e.msg] := by
  rcases hk with h | h <;> simp [classifyEvent, h, logIf, h2]

/-- C5 helper: an informational event processed before the first match is
logged with elapsed time relative to the wait call's own entry clock. -/
theorem info_elapsed_from_entry_clock {α : Type} (msgText : Nat → String)
    (verbosity : Nat) (check : Event → Option α) (clock : Int)
    (pre : List Event) (e : Event) (post : List Event) (h2 : 2 ≤ verbosity)
    (hk : e.kind = .INFO ∨ e.kind = .WARNING)
    (hpre : ∀ x ∈ pre, check x = none) :
    ("INFO " ++ toString ((e.time - clock) * 1000) ++ "ms: " ++ e.msg) ∈
      (wait_for_event msgText verbosity check clock
        (pre ++ e :: post)).logs := by
  rw [wait_for_event, waitLoop_append_none msgText verbosity check clock pre
    (e :: post) hpre]
  by_cases he : (check e).isSome = true
  · rw [waitLoop_cons_some msgText verbosity check clock e post he,
      classify_info_line msgText verbosity clock e h2 hk]
    simp
  · rw [waitLoop_cons_none msgText verbosity check clock e post
      (Option.not_isSome_iff_eq_none.mp he),
      classify_info_line msgText verbosity clock e h2 hk]
    simp

/-- C5: at verbosity at least 2, a progress/informational notification is
logged with elapsed time measured from the waiter's own clock-start (the
clock at that `wait` call's entry); and the clock-start is reset per
invocation: a second wait chained after a first that matched event `e1`
measures elapsed time from `e1`'s pull time (its own entry clock), not from
the first invocation's clock-start. -/
theorem info_logged_with_fresh_clock :
    (∀ (α : Type) (msgText : Nat → String) (verbosity : Nat)
        (check : Event → Option α) (clock : Int) (pre : List Event)
        (e : Event) (post : List Event),
      2 ≤ verbosity → (e.kind = .INFO ∨ e.kind = .WARNING) →
        (∀ x ∈ pre, check x = none) →
        ("INFO " ++ toString ((e.time - clock) * 1000) ++ "ms: " ++ e.msg) ∈
          (wait_for_event msgText verbosity check clock
            (pre ++ e :: post)).logs) ∧
      (∀ (α β : Type) (msgText : Nat → String) (verbosity : Nat)
          (check1 : Event → Option α) (check2 : Event → Option β)
          (clock : Int) (s1 : List Event) (e1 : Event) (pre : List Event)
          (e : Event) (post : List Event),
        (wait_for_event msgText verbosity check1 clock s1).result =
            some e1 →
          2 ≤ verbosity → (e.kind = .INFO ∨ e.kind = .WARNING) →
          (∀ x ∈ pre, check2 x = none) →
          ("INFO " ++ toString ((e.time - e1.time) * 1000) ++ "ms: " ++
              e.msg) ∈
            (wait_for_event msgText verbosity check2
              ((wait_for_event msgText verbosity check1 clock s1).clock)
              (pre ++ e :: post)).logs) := by
  constructor
  · intro α msgText verbosity check clock pre e post h2 hk hpre
    exact info_elapsed_from_entry_clock msgText verbosity check clock pre e
      post h2 hk hpre
  · intro α β msgText verbosity check1 check2 clock s1 e1 pre e post h1 h2
      hk hpre
    rw [wait_clock_eq_time msgText verbosity check1 clock s1 e1 h1]
    exact info_elapsed_from_entry_clock msgText verbosity check2 e1.time pre
      e post h2 hk hpre

/-- C5 (witness). -/
theorem info_logged_with_fresh_clock_witness :
    (2 ≤ 2) ∧ (ev_info.kind = .INFO ∨ ev_info.kind = .WARNING) ∧
      ("INFO " ++ toString ((ev_info.time - 0) * 1000) ++ "ms: " ++
          ev_info.msg) ∈
        (wait_for_event msgText0 2 checkNone 0
          ([] ++ ev_info :: [])).logs :=
  ⟨le_refl 2, Or.inl rfl,
    info_logged_with_fresh_clock.1 Event msgText0 2 checkNone 0 [] ev_info
      [] (le_refl 2) (Or.inl rfl) (fun _ _ => rfl)⟩

end Cmsend

